import Mathlib

/-!
The SQL function `seeded_random(seed, id)` of sqlite-seeded-random.

A shallow embedding of `src/seeded_random.c`.  Unsigned 64-bit values are
natural numbers below `2^64`, every wrapping operation carries an explicit
`% 2^64`; signed 64-bit values are integers in `[-2^63, 2^63)`.
-/

namespace SeededRandom

/-! ## Host data model (the part of the SQLite C API the extension calls) -/

/-- Fundamental datatype code of a 64-bit signed integer value (`sqlite3.h`). -/
def SQLITE_INTEGER : Nat := 1

/-- Fundamental datatype code of the NULL value (`sqlite3.h`). -/
def SQLITE_NULL : Nat := 5

/-- Result code of a successful host call (`sqlite3.h`). -/
def SQLITE_OK : Int := 0

/-- Text-encoding flag of `sqlite3_create_function` (`sqlite3.h`). -/
def SQLITE_UTF8 : Nat := 0x00000001

/-- Function flag: same inputs give the same output (`sqlite3.h`). -/
def SQLITE_DETERMINISTIC : Nat := 0x000000800

/-- Function flag: no side effects, usable from restricted contexts (`sqlite3.h`). -/
def SQLITE_INNOCUOUS : Nat := 0x000200000

/-- A dynamically typed SQL value as the extension receives it: NULL or a
signed 64-bit integer (the argument-coercion collaborator supplies nothing else). -/
inductive sqlite3_value where
  | null : sqlite3_value
  | integer (v : Int) : sqlite3_value
  deriving DecidableEq, Repr

/-- The per-invocation function context: the result slot `pOut` (NULL until a
result is stored) and the error code `isError` (zero while no error is reported). -/
structure sqlite3_context where
  pOut : sqlite3_value
  isError : Int
  deriving DecidableEq, Repr

/-- Host API: the datatype code of a value. -/
def sqlite3_value_type : sqlite3_value → Nat
  | .null => SQLITE_NULL
  | .integer _ => SQLITE_INTEGER

/-- Host API: the value as a signed 64-bit integer; NULL converts to 0. -/
def sqlite3_value_int64 : sqlite3_value → Int
  | .null => 0
  | .integer v => v

/-- Host API: store NULL as the result of the call. -/
def sqlite3_result_null (ctx : sqlite3_context) : sqlite3_context :=
  { ctx with pOut := .null }

/-- Host API: store a signed 64-bit integer as the result of the call. -/
def sqlite3_result_int64 (ctx : sqlite3_context) (v : Int) : sqlite3_context :=
  { ctx with pOut := .integer v }

/-! ## Machine integers -/

/-- The C conversion `(uint64_t)v` of a signed value: reduction modulo `2^64`. -/
def toUInt64 (v : Int) : Nat := (v % 2 ^ 64).toNat

/-- The C conversion `(int64_t)x` of an unsigned 64-bit value `x < 2^64`: the
signed integer with the same two's-complement bit pattern. -/
def toInt64 (x : Nat) : Int :=
  if x < 2 ^ 63 then (x : Int) else (x : Int) - 2 ^ 64

/-- Membership in the signed 64-bit range. -/
def isInt64 (v : Int) : Prop := -2 ^ 63 ≤ v ∧ v < 2 ^ 63

instance (v : Int) : Decidable (isInt64 v) := by
  unfold isInt64; exact inferInstance

/-- Signed 64-bit wraparound of an integer: the value a wrapping `int64`
operation leaves for the exact result `v`. -/
def wrapInt64 (v : Int) : Int := toInt64 (toUInt64 v)

/-! ## The extension -/

/-- The SQL function body (`seeded_random_func`, lines 15-37).  `argv` is the
argument array; reading past its end has no defined outcome (`none`).  The
local `x` is rebound by each assignment. -/
def seeded_random_func (ctx : sqlite3_context) (argc : Int)
    (argv : List sqlite3_value) : Option sqlite3_context :=
  let _ := argc
  match argv[0]? with
  | none => none
  | some a0 =>
    if sqlite3_value_type a0 = SQLITE_NULL then some (sqlite3_result_null ctx)
    else
      match argv[1]? with
      | none => none
      | some a1 =>
        if sqlite3_value_type a1 = SQLITE_NULL then some (sqlite3_result_null ctx)
        else
          let x := ((toUInt64 (sqlite3_value_int64 a0) * 0x9E3779B97F4A7C15) % 2 ^ 64
                      + toUInt64 (sqlite3_value_int64 a1)) % 2 ^ 64
          let x := x ^^^ (x >>> 30)
          let x := (x * 0xBF58476D1CE4E5B9) % 2 ^ 64
          let x := x ^^^ (x >>> 27)
          let x := (x * 0x94D049BB133111EB) % 2 ^ 64
          let x := x ^^^ (x >>> 31)
          some (sqlite3_result_int64 ctx (toInt64 x))

/-- Signature of a scalar SQL function implementation (`xFunc`). -/
abbrev ScalarFunc := sqlite3_context → Int → List sqlite3_value → Option sqlite3_context

/-- One registration request as `sqlite3_create_function` receives it. -/
structure FuncDef where
  zFunctionName : String
  nArg : Int
  eTextRep : Nat
  pApp : Option Nat
  xFunc : Option ScalarFunc
  xStep : Option ScalarFunc
  xFinal : Option (sqlite3_context → Option sqlite3_context)

/-- The routines table `pApi` through which the extension reaches the host
(`SQLITE_EXTENSION_INIT2` installs it).  The init routine calls one member,
`create_function`, which returns a status code and the updated connection. -/
structure sqlite3_api_routines (DB : Type) where
  create_function : DB → String → Int → Nat → Option Nat → Option ScalarFunc →
    Option ScalarFunc → Option (sqlite3_context → Option sqlite3_context) → Int × DB

/-- The extension entry point (`sqlite3_seededrandom_init`, lines 44-55). -/
def sqlite3_seededrandom_init {DB : Type} (db : DB) (pzErrMsg : Option String)
    (pApi : sqlite3_api_routines DB) : Int × DB :=
  let _ := pzErrMsg
  pApi.create_function db "seeded_random" 2
    (SQLITE_UTF8 ||| SQLITE_DETERMINISTIC ||| SQLITE_INNOCUOUS)
    none (some seeded_random_func) none none

/-- A host that records every registration request in order and answers each
with the status code chosen by `status`. -/
def recordingHost (status : List FuncDef → FuncDef → Int) :
    sqlite3_api_routines (List FuncDef) where
  create_function := fun db zFunctionName nArg eTextRep pApp xFunc xStep xFinal =>
    let d : FuncDef := ⟨zFunctionName, nArg, eTextRep, pApp, xFunc, xStep, xFinal⟩
    (status db d, db ++ [d])

/-! ## Statement-level execution, for interleaving -/

/-- Program points of `seeded_random_func`, named by source line; `returned`
is the point after `return`, `undefined` follows a read outside `argv`. -/
inductive Pc where
  | L21 | L28 | L30 | L31 | L32 | L33 | L34 | L36 | returned | undefined
  deriving DecidableEq, Repr

/-- One activation of `seeded_random_func`: its program point, its local `x`
(indeterminate on entry) and its three parameters. -/
structure Frame where
  pc : Pc
  x : Nat
  ctx : sqlite3_context
  argc : Int
  argv : List sqlite3_value
  deriving DecidableEq, Repr

/-- The activation at function entry, with `x0` the indeterminate initial `x`. -/
def Frame.entry (x0 : Nat) (ctx : sqlite3_context) (argc : Int)
    (argv : List sqlite3_value) : Frame :=
  { pc := .L21, x := x0, ctx := ctx, argc := argc, argv := argv }

/-- Execute the statement at the current program point.  A returned
activation has nothing left to execute and stays as it is. -/
def Frame.step (f : Frame) : Frame :=
  match f.pc with
  | .L21 =>
    match f.argv[0]? with
    | none => { f with pc := .undefined }
    | some a0 =>
      if sqlite3_value_type a0 = SQLITE_NULL then
        { f with ctx := sqlite3_result_null f.ctx, pc := .returned }
      else
        match f.argv[1]? with
        | none => { f with pc := .undefined }
        | some a1 =>
          if sqlite3_value_type a1 = SQLITE_NULL then
            { f with ctx := sqlite3_result_null f.ctx, pc := .returned }
          else { f with pc := .L28 }
  | .L28 =>
    match f.argv[0]?, f.argv[1]? with
    | some a0, some a1 =>
      { f with
        x := ((toUInt64 (sqlite3_value_int64 a0) * 0x9E3779B97F4A7C15) % 2 ^ 64
                + toUInt64 (sqlite3_value_int64 a1)) % 2 ^ 64
        pc := .L30 }
    | _, _ => { f with pc := .undefined }
  | .L30 => { f with x := f.x ^^^ (f.x >>> 30), pc := .L31 }
  | .L31 => { f with x := (f.x * 0xBF58476D1CE4E5B9) % 2 ^ 64, pc := .L32 }
  | .L32 => { f with x := f.x ^^^ (f.x >>> 27), pc := .L33 }
  | .L33 => { f with x := (f.x * 0x94D049BB133111EB) % 2 ^ 64, pc := .L34 }
  | .L34 => { f with x := f.x ^^^ (f.x >>> 31), pc := .L36 }
  | .L36 => { f with ctx := sqlite3_result_int64 f.ctx (toInt64 f.x), pc := .returned }
  | .returned => f
  | .undefined => f

/-- What an activation hands back: its context once it has returned. -/
def Frame.outcome (f : Frame) : Option sqlite3_context :=
  if f.pc = .returned then some f.ctx else none

/-- Two activations running on two threads. -/
structure World where
  a : Frame
  b : Frame
  deriving DecidableEq, Repr

/-- One scheduling decision: `true` lets thread `a` execute a statement,
`false` lets thread `b`. -/
def World.step (w : World) (t : Bool) : World :=
  if t then { w with a := w.a.step } else { w with b := w.b.step }

/-- Run a schedule, one decision after the other. -/
def World.run (w : World) (sched : List Bool) : World :=
  sched.foldl World.step w

/-! ## The SQL-level view -/

/-- A nullable integer as an SQL value. -/
def ofOption : Option Int → sqlite3_value
  | none => .null
  | some v => .integer v

/-- An SQL value as a nullable integer. -/
def toOption : sqlite3_value → Option Int
  | .null => none
  | .integer v => some v

/-- The value of the SQL expression `seeded_random(seed, id)`: the host clears
the result slot, invokes the registered function on the two arguments and
reads the slot back. -/
def evaluate (seed id : Option Int) : Option Int :=
  match seeded_random_func ⟨.null, SQLITE_OK⟩ 2 [ofOption seed, ofOption id] with
  | some ctx => toOption ctx.pOut
  | none => none

/-! ## The arithmetic of lines 28-34, step by step -/

/-- The statement `x ^= x >> k`. -/
def xorshift (k x : Nat) : Nat := x ^^^ (x >>> k)

/-- The statement `x *= c` on `uint64_t`. -/
def mulwrap (c x : Nat) : Nat := (x * c) % 2 ^ 64

/-- Lines 28-29: golden-ratio seed combining. -/
def seedCombine (seed id : Int) : Nat :=
  ((toUInt64 seed * 0x9E3779B97F4A7C15) % 2 ^ 64 + toUInt64 id) % 2 ^ 64

/-- Lines 30-34: the splitmix64 finalizer. -/
def finalizer (x : Nat) : Nat :=
  xorshift 31 (mulwrap 0x94D049BB133111EB (xorshift 27 (mulwrap 0xBF58476D1CE4E5B9 (xorshift 30 x))))

/-- The final value of the local `x` on integer arguments. -/
def mix64 (seed id : Int) : Nat := finalizer (seedCombine seed id)

/-! ## The algorithm in the words of the specification -/

namespace Spec

/-- Reinterpretation of a signed 64-bit integer as unsigned (two's complement). -/
def asUnsigned (v : Int) : Nat := if 0 ≤ v then v.toNat else (v + 2 ^ 64).toNat

/-- Logical (zero-fill) right shift. -/
def lsr (x k : Nat) : Nat := x / 2 ^ k

/-- Step 2: `x0 = seed_u * 0x9E3779B97F4A7C15 + id_u` modulo `2^64`. -/
def x0 (seed id : Int) : Nat := (asUnsigned seed * 0x9E3779B97F4A7C15 + asUnsigned id) % 2 ^ 64

/-- Step 3a: `x1 = x0 XOR (x0 >> 30)`. -/
def x1 (seed id : Int) : Nat := Nat.xor (x0 seed id) (lsr (x0 seed id) 30)

/-- Step 3b: `x2 = x1 * 0xBF58476D1CE4E5B9` modulo `2^64`. -/
def x2 (seed id : Int) : Nat := (x1 seed id * 0xBF58476D1CE4E5B9) % 2 ^ 64

/-- Step 3c: `x3 = x2 XOR (x2 >> 27)`. -/
def x3 (seed id : Int) : Nat := Nat.xor (x2 seed id) (lsr (x2 seed id) 27)

/-- Step 3d: `x4 = x3 * 0x94D049BB133111EB` modulo `2^64`. -/
def x4 (seed id : Int) : Nat := (x3 seed id * 0x94D049BB133111EB) % 2 ^ 64

/-- Step 3e: `x5 = x4 XOR (x4 >> 31)`. -/
def x5 (seed id : Int) : Nat := Nat.xor (x4 seed id) (lsr (x4 seed id) 31)

end Spec

/-! ## Basic facts -/

theorem seeded_random_func_integer (ctx : sqlite3_context) (argc : Int) (seed id : Int) :
    seeded_random_func ctx argc [.integer seed, .integer id]
      = some (sqlite3_result_int64 ctx (toInt64 (mix64 seed id))) := rfl

theorem seeded_random_func_null_left (ctx : sqlite3_context) (argc : Int) (a1 : sqlite3_value) :
    seeded_random_func ctx argc [.null, a1] = some (sqlite3_result_null ctx) := rfl

theorem seeded_random_func_null_right (ctx : sqlite3_context) (argc : Int) (a0 : sqlite3_value) :
    seeded_random_func ctx argc [a0, .null] = some (sqlite3_result_null ctx) := by
  cases a0 <;> rfl

theorem evaluate_some (seed id : Int) :
    evaluate (some seed) (some id) = some (toInt64 (mix64 seed id)) := rfl

theorem toUInt64_lt (v : Int) : toUInt64 v < 2 ^ 64 := by
  unfold toUInt64; omega

theorem toUInt64_eq_asUnsigned (v : Int) (h : isInt64 v) : toUInt64 v = Spec.asUnsigned v := by
  unfold toUInt64 Spec.asUnsigned isInt64 at *
  split <;> omega

theorem toInt64_isInt64 (x : Nat) (h : x < 2 ^ 64) : isInt64 (toInt64 x) := by
  unfold toInt64 isInt64
  split <;> omega

theorem toUInt64_toInt64 (x : Nat) (h : x < 2 ^ 64) : toUInt64 (toInt64 x) = x := by
  unfold toInt64 toUInt64
  split <;> omega

theorem toInt64_toUInt64 (v : Int) (h : isInt64 v) : toInt64 (toUInt64 v) = v := by
  unfold toInt64 toUInt64 isInt64 at *
  split <;> omega

theorem toInt64_injective (x y : Nat) (hx : x < 2 ^ 64) (hy : y < 2 ^ 64)
    (h : toInt64 x = toInt64 y) : x = y := by
  rw [← toUInt64_toInt64 x hx, ← toUInt64_toInt64 y hy, h]

theorem xorshift_lt (k x : Nat) (h : x < 2 ^ 64) : xorshift k x < 2 ^ 64 := by
  unfold xorshift
  apply Nat.xor_lt_two_pow h
  rw [Nat.shiftRight_eq_div_pow]
  exact lt_of_le_of_lt (Nat.div_le_self x (2 ^ k)) h

theorem mulwrap_lt (c x : Nat) : mulwrap c x < 2 ^ 64 := by
  unfold mulwrap; exact Nat.mod_lt _ (by norm_num)

theorem finalizer_lt (x : Nat) : finalizer x < 2 ^ 64 := by
  unfold finalizer; exact xorshift_lt _ _ (mulwrap_lt _ _)

theorem mix64_lt (seed id : Int) : mix64 seed id < 2 ^ 64 := finalizer_lt _

theorem seedCombine_lt (seed id : Int) : seedCombine seed id < 2 ^ 64 := by
  unfold seedCombine; exact Nat.mod_lt _ (by norm_num)

theorem shiftRight_eq_lsr (x k : Nat) : x >>> k = Spec.lsr x k := by
  unfold Spec.lsr; exact Nat.shiftRight_eq_div_pow x k

theorem mix64_eq_spec (seed id : Int) (hs : isInt64 seed) (hi : isInt64 id) :
    mix64 seed id = Spec.x5 seed id := by
  have h0 : seedCombine seed id = Spec.x0 seed id := by
    unfold seedCombine Spec.x0
    rw [toUInt64_eq_asUnsigned seed hs, toUInt64_eq_asUnsigned id hi, Nat.mod_add_mod]
  unfold mix64 finalizer
  rw [h0]
  simp only [xorshift, mulwrap, shiftRight_eq_lsr]
  rfl

/-! ## Invertibility of the mixing steps -/

theorem testBit_xorshift (k x i : Nat) :
    (xorshift k x).testBit i = xor (x.testBit i) (x.testBit (k + i)) := by
  unfold xorshift
  rw [Nat.testBit_xor, Nat.testBit_shiftRight]

theorem testBit_high (x i : Nat) (hx : x < 2 ^ 64) (hi : 64 ≤ i) : x.testBit i = false :=
  Nat.testBit_lt_two_pow (lt_of_lt_of_le hx (Nat.pow_le_pow_right (by norm_num) hi))

/-- An xor-shift by a positive amount is injective on 64-bit values: the bits
are recovered from the top down. -/
theorem xorshift_injective (k x y : Nat) (hk : 0 < k) (hx : x < 2 ^ 64) (hy : y < 2 ^ 64)
    (h : xorshift k x = xorshift k y) : x = y := by
  have key : ∀ n i, 64 ≤ i + n → x.testBit i = y.testBit i := by
    intro n
    induction n with
    | zero =>
      intro i hi
      rw [testBit_high x i hx (by omega), testBit_high y i hy (by omega)]
    | succ n ih =>
      intro i hi
      have hb : (xorshift k x).testBit i = (xorshift k y).testBit i := by rw [h]
      rw [testBit_xorshift, testBit_xorshift, ih (k + i) (by omega)] at hb
      revert hb
      cases x.testBit i <;> cases y.testBit i <;> cases y.testBit (k + i) <;> simp
  exact Nat.eq_of_testBit_eq fun i => key 64 i (by omega)

/-- Wrapping multiplication by a constant coprime to `2^64` (an odd constant)
is injective on 64-bit values. -/
theorem mulwrap_injective (c x y : Nat) (hc : Nat.Coprime (2 ^ 64) c) (hx : x < 2 ^ 64)
    (hy : y < 2 ^ 64) (h : mulwrap c x = mulwrap c y) : x = y := by
  have h1 : x * c ≡ y * c [MOD 2 ^ 64] := h
  have h2 : x ≡ y [MOD 2 ^ 64] := Nat.ModEq.cancel_right_of_coprime hc h1
  exact Nat.ModEq.eq_of_lt_of_lt h2 hx hy

theorem finalizer_injective (x y : Nat) (hx : x < 2 ^ 64) (hy : y < 2 ^ 64)
    (h : finalizer x = finalizer y) : x = y := by
  unfold finalizer at h
  have h4 := xorshift_injective 31 _ _ (by norm_num) (mulwrap_lt _ _) (mulwrap_lt _ _) h
  have h3 := mulwrap_injective _ _ _ (by norm_num) (xorshift_lt _ _ (mulwrap_lt _ _))
    (xorshift_lt _ _ (mulwrap_lt _ _)) h4
  have h2 := xorshift_injective 27 _ _ (by norm_num) (mulwrap_lt _ _) (mulwrap_lt _ _) h3
  have h1 := mulwrap_injective _ _ _ (by norm_num) (xorshift_lt _ _ hx) (xorshift_lt _ _ hy) h2
  exact xorshift_injective 30 _ _ (by norm_num) hx hy h1

/-- The finalizer reaches every 64-bit value: an injective map of a finite set
to itself is onto. -/
theorem finalizer_surjective (y : Nat) (hy : y < 2 ^ 64) :
    ∃ x, x < 2 ^ 64 ∧ finalizer x = y := by
  let f : Fin (2 ^ 64) → Fin (2 ^ 64) := fun x => ⟨finalizer x.val, finalizer_lt x.val⟩
  have hinj : Function.Injective f := by
    intro a b hab
    have hv : finalizer a.val = finalizer b.val := congrArg Fin.val hab
    exact Fin.ext (finalizer_injective _ _ a.isLt b.isLt hv)
  obtain ⟨x, hx⟩ := (Finite.injective_iff_surjective.mp hinj) ⟨y, hy⟩
  exact ⟨x.val, x.isLt, congrArg Fin.val hx⟩

theorem seedCombine_eq_mulwrap (seed id : Int) :
    seedCombine seed id
      = (mulwrap 0x9E3779B97F4A7C15 (toUInt64 seed) + toUInt64 id) % 2 ^ 64 := rfl

theorem add_mod_cancel_left64 (a c1 c2 : Nat) (h1 : c1 < 2 ^ 64) (h2 : c2 < 2 ^ 64)
    (h : (a + c1) % 2 ^ 64 = (a + c2) % 2 ^ 64) : c1 = c2 := by
  omega

theorem add_mod_cancel_right64 (a b c : Nat) (ha : a < 2 ^ 64) (hb : b < 2 ^ 64)
    (h : (a + c) % 2 ^ 64 = (b + c) % 2 ^ 64) : a = b := by
  omega

theorem toUInt64_injective (u v : Int) (hu : isInt64 u) (hv : isInt64 v)
    (h : toUInt64 u = toUInt64 v) : u = v := by
  rw [← toInt64_toUInt64 u hu, ← toInt64_toUInt64 v hv, h]

theorem mix64_injective_id (s i1 i2 : Int) (h1 : isInt64 i1) (h2 : isInt64 i2)
    (h : mix64 s i1 = mix64 s i2) : i1 = i2 := by
  have hc := finalizer_injective _ _ (seedCombine_lt s i1) (seedCombine_lt s i2) h
  rw [seedCombine_eq_mulwrap, seedCombine_eq_mulwrap] at hc
  exact toUInt64_injective _ _ h1 h2
    (add_mod_cancel_left64 _ _ _ (toUInt64_lt i1) (toUInt64_lt i2) hc)

theorem mix64_injective_seed (i s1 s2 : Int) (h1 : isInt64 s1) (h2 : isInt64 s2)
    (h : mix64 s1 i = mix64 s2 i) : s1 = s2 := by
  have hc := finalizer_injective _ _ (seedCombine_lt s1 i) (seedCombine_lt s2 i) h
  rw [seedCombine_eq_mulwrap, seedCombine_eq_mulwrap] at hc
  have hm := add_mod_cancel_right64 _ _ _ (mulwrap_lt _ _) (mulwrap_lt _ _) hc
  exact toUInt64_injective _ _ h1 h2
    (mulwrap_injective _ _ _ (by norm_num) (toUInt64_lt s1) (toUInt64_lt s2) hm)

theorem seedCombine_surjective (s : Int) (x : Nat) (hx : x < 2 ^ 64) :
    ∃ i, isInt64 i ∧ seedCombine s i = x := by
  have ha : mulwrap 0x9E3779B97F4A7C15 (toUInt64 s) < 2 ^ 64 := mulwrap_lt _ _
  have hc : (x + 2 ^ 64 - mulwrap 0x9E3779B97F4A7C15 (toUInt64 s)) % 2 ^ 64 < 2 ^ 64 :=
    Nat.mod_lt _ (by norm_num)
  refine ⟨toInt64 ((x + 2 ^ 64 - mulwrap 0x9E3779B97F4A7C15 (toUInt64 s)) % 2 ^ 64),
    toInt64_isInt64 _ hc, ?_⟩
  rw [seedCombine_eq_mulwrap, toUInt64_toInt64 _ hc]
  generalize mulwrap 0x9E3779B97F4A7C15 (toUInt64 s) = a at ha ⊢
  omega

theorem evaluate_some_inj (s1 i1 s2 i2 : Int)
    (h : evaluate (some s1) (some i1) = evaluate (some s2) (some i2)) :
    mix64 s1 i1 = mix64 s2 i2 := by
  rw [evaluate_some, evaluate_some] at h
  exact toInt64_injective _ _ (mix64_lt _ _) (mix64_lt _ _) (Option.some.inj h)

/-! ## Dependence on `seed * 0x9E3779B97F4A7C15 + id` alone -/

theorem toUInt64_cast (v : Int) : ((toUInt64 v : Nat) : Int) = v % 2 ^ 64 := by
  unfold toUInt64
  exact Int.toNat_of_nonneg (Int.emod_nonneg _ (by norm_num))

theorem toUInt64_congr (a b : Int) (h : a % 2 ^ 64 = b % 2 ^ 64) : toUInt64 a = toUInt64 b := by
  unfold toUInt64; rw [h]

theorem seedCombine_cast (s i : Int) :
    ((seedCombine s i : Nat) : Int) = (s * 0x9E3779B97F4A7C15 + i) % 2 ^ 64 := by
  have hs : s % 2 ^ 64 ≡ s [ZMOD 2 ^ 64] := Int.mod_modEq s _
  have hi : i % 2 ^ 64 ≡ i [ZMOD 2 ^ 64] := Int.mod_modEq i _
  have h : s % 2 ^ 64 * 0x9E3779B97F4A7C15 + i % 2 ^ 64
      ≡ s * 0x9E3779B97F4A7C15 + i [ZMOD 2 ^ 64] := (hs.mul_right _).add hi
  unfold seedCombine
  rw [Nat.mod_add_mod]
  push_cast
  rw [toUInt64_cast, toUInt64_cast]
  exact h

theorem seedCombine_eq (s i : Int) :
    seedCombine s i = toUInt64 (s * 0x9E3779B97F4A7C15 + i) := by
  have h := seedCombine_cast s i
  rw [← toUInt64_cast] at h
  exact Int.ofNat_inj.mp h

theorem wrapInt64_modEq (v : Int) : wrapInt64 v ≡ v [ZMOD 2 ^ 64] := by
  unfold wrapInt64 toInt64 toUInt64 Int.ModEq
  split <;> omega

theorem wrapInt64_isInt64 (v : Int) : isInt64 (wrapInt64 v) :=
  toInt64_isInt64 _ (toUInt64_lt v)

theorem evaluate_congr (s i s1 i1 : Int)
    (h : (s * 0x9E3779B97F4A7C15 + i) % 2 ^ 64 = (s1 * 0x9E3779B97F4A7C15 + i1) % 2 ^ 64) :
    evaluate (some s) (some i) = evaluate (some s1) (some i1) := by
  rw [evaluate_some, evaluate_some]
  unfold mix64
  rw [seedCombine_eq, seedCombine_eq, toUInt64_congr _ _ h]

theorem wrapInt64_succ_ne (i : Int) (h : isInt64 i) : wrapInt64 (i + 1) ≠ i := by
  unfold wrapInt64 toInt64 toUInt64
  unfold isInt64 at h
  split <;> omega

theorem mulwrap_golden_inverse (x : Nat) (hx : x < 2 ^ 64) :
    mulwrap 0xF1DE83E19937733D (mulwrap 0x9E3779B97F4A7C15 x) = x := by
  have h1 : x * 0x9E3779B97F4A7C15 % 2 ^ 64 ≡ x * 0x9E3779B97F4A7C15 [MOD 2 ^ 64] :=
    Nat.mod_modEq _ _
  have h2 : (0x9E3779B97F4A7C15 * 0xF1DE83E19937733D : Nat) ≡ 1 [MOD 2 ^ 64] := by decide
  have h3 : x * 0x9E3779B97F4A7C15 % 2 ^ 64 * 0xF1DE83E19937733D ≡ x [MOD 2 ^ 64] := by
    calc x * 0x9E3779B97F4A7C15 % 2 ^ 64 * 0xF1DE83E19937733D
        ≡ x * 0x9E3779B97F4A7C15 * 0xF1DE83E19937733D [MOD 2 ^ 64] := h1.mul_right _
      _ = x * (0x9E3779B97F4A7C15 * 0xF1DE83E19937733D) := Nat.mul_assoc _ _ _
      _ ≡ x * 1 [MOD 2 ^ 64] := h2.mul_left _
      _ = x := Nat.mul_one x
  unfold mulwrap
  exact Nat.ModEq.eq_of_lt_of_lt (Nat.ModEq.trans (Nat.mod_modEq _ _) h3)
    (Nat.mod_lt _ (by norm_num)) hx

/-! ## C1: the step sequence -/

/-- C1: for signed 64-bit `seed` and `id`, `seeded_random_func` stores the signed
64-bit integer whose two's-complement bit pattern is the `x5` of the
specification's step sequence (golden-ratio combine, then xor-shift 30,
multiply, xor-shift 27, multiply, xor-shift 31, all modulo `2^64` with logical
shifts); for `seed = 42`, `id = 1` that value is `-5383142681732044537`, the
bit pattern `13063601391977507079`. -/
theorem seeded_random_func_follows_step_sequence (ctx : sqlite3_context) (argc : Int)
    (seed id : Int) (hs : isInt64 seed) (hi : isInt64 id) :
    (∃ r : Int,
        seeded_random_func ctx argc [.integer seed, .integer id]
          = some (sqlite3_result_int64 ctx r)
        ∧ isInt64 r ∧ Spec.asUnsigned r = Spec.x5 seed id)
    ∧ seeded_random_func ctx argc [.integer 42, .integer 1]
          = some (sqlite3_result_int64 ctx (-5383142681732044537))
    ∧ Spec.x5 42 1 = 13063601391977507079
    ∧ Spec.asUnsigned (-5383142681732044537) = Spec.x5 42 1 := by
  refine ⟨⟨toInt64 (mix64 seed id), seeded_random_func_integer ctx argc seed id,
    toInt64_isInt64 _ (mix64_lt seed id), ?_⟩, ?_, ?_, ?_⟩
  · rw [← toUInt64_eq_asUnsigned _ (toInt64_isInt64 _ (mix64_lt seed id)),
      toUInt64_toInt64 _ (mix64_lt seed id), mix64_eq_spec seed id hs hi]
  · have h : toInt64 (mix64 42 1) = -5383142681732044537 := by decide
    rw [seeded_random_func_integer, h]
  · decide
  · decide

theorem seeded_random_func_follows_step_sequence_witness :
    (isInt64 (-9223372036854775808) ∧ isInt64 9223372036854775807)
    ∧ ((∃ r : Int,
        seeded_random_func ⟨.null, 0⟩ 2 [.integer (-9223372036854775808), .integer 9223372036854775807]
          = some (sqlite3_result_int64 ⟨.null, 0⟩ r)
        ∧ isInt64 r
        ∧ Spec.asUnsigned r = Spec.x5 (-9223372036854775808) 9223372036854775807)
      ∧ seeded_random_func ⟨.null, 0⟩ 2 [.integer 42, .integer 1]
          = some (sqlite3_result_int64 ⟨.null, 0⟩ (-5383142681732044537))
      ∧ Spec.x5 42 1 = 13063601391977507079
      ∧ Spec.asUnsigned (-5383142681732044537) = Spec.x5 42 1) :=
  ⟨⟨by decide, by decide⟩,
   seeded_random_func_follows_step_sequence ⟨.null, 0⟩ 2 (-9223372036854775808)
     9223372036854775807 (by decide) (by decide)⟩

/-! ## C2: NULL propagation -/

/-- C2: a NULL in either argument position makes the call do nothing but store
NULL (`sqlite3_result_null`), so `evaluate` returns NULL for `(NULL, x)`,
`(x, NULL)` and `(NULL, NULL)`; conversely a NULL result occurs only when at
least one argument is NULL. -/
theorem seeded_random_func_null_propagation (ctx : sqlite3_context) (argc : Int)
    (a0 a1 : sqlite3_value) (x : Int) :
    (a0 = .null ∨ a1 = .null →
        seeded_random_func ctx argc [a0, a1] = some (sqlite3_result_null ctx))
    ∧ (∀ ctx1, seeded_random_func ctx argc [a0, a1] = some ctx1 →
        ctx1.pOut = .null → a0 = .null ∨ a1 = .null)
    ∧ evaluate none (some x) = none
    ∧ evaluate (some x) none = none
    ∧ evaluate none none = none
    ∧ (∀ seed id, evaluate seed id = none → seed = none ∨ id = none) := by
  refine ⟨?_, ?_, rfl, rfl, rfl, ?_⟩
  · rintro (h | h)
    · subst h; exact seeded_random_func_null_left ctx argc a1
    · subst h; exact seeded_random_func_null_right ctx argc a0
  · intro ctx1 h hnull
    cases a0 with
    | null => exact Or.inl rfl
    | integer s =>
      cases a1 with
      | null => exact Or.inr rfl
      | integer i =>
        rw [seeded_random_func_integer] at h
        cases h
        simp [sqlite3_result_int64] at hnull
  · intro seed id h
    cases seed with
    | none => exact Or.inl rfl
    | some s =>
      cases id with
      | none => exact Or.inr rfl
      | some i => rw [evaluate_some] at h; cases h

theorem seeded_random_func_null_propagation_witness :
    seeded_random_func ⟨.integer 7, 0⟩ 2 [.null, .integer 5]
      = some (sqlite3_result_null ⟨.integer 7, 0⟩) :=
  (seeded_random_func_null_propagation ⟨.integer 7, 0⟩ 2 .null (.integer 5) 5).1 (Or.inl rfl)

/-! ## C3: the value at `(0, 0)` -/

/-- C3 (as stated, refuted): `evaluate(0, 0)` is not different from 0. -/
theorem evaluate_zero_zero_not_nonzero : ¬ (evaluate (some 0) (some 0) ≠ some 0) := by
  decide

/-- C3 (amended): `evaluate(0, 0)` equals 0: seed 0 and id 0 combine to `x = 0`,
the finalizer maps 0 to 0, and the call stores the integer 0. -/
theorem evaluate_zero_zero_eq_zero (ctx : sqlite3_context) (argc : Int) :
    evaluate (some 0) (some 0) = some 0
    ∧ seedCombine 0 0 = 0
    ∧ finalizer 0 = 0
    ∧ seeded_random_func ctx argc [.integer 0, .integer 0]
        = some (sqlite3_result_int64 ctx 0) := by
  have h : toInt64 (mix64 0 0) = 0 := by decide
  refine ⟨by decide, by decide, by decide, ?_⟩
  rw [seeded_random_func_integer, h]

/-! ## C4: totality on integer input -/

/-- C4: on any two integer arguments the call completes, leaves the error code
untouched and stores a non-NULL integer `r` with `-2^63 ≤ r ≤ 2^63 - 1`, the
two's-complement reading of the final unsigned `x5 < 2^64` (`x5` itself below
`2^63`, `x5 - 2^64` otherwise, no clamping), where the combine step wraps
modulo `2^64`; the keys at `(INT64_MIN, INT64_MIN)`, `(INT64_MAX, INT64_MAX)`
and `(-1, -1)` are `0`, `-2447048559937167164` and `-2447048559937167164`. -/
theorem seeded_random_func_total_on_integers (ctx : sqlite3_context) (argc : Int)
    (seed id : Int) :
    ∃ r : Int,
      seeded_random_func ctx argc [.integer seed, .integer id]
        = some { pOut := .integer r, isError := ctx.isError }
      ∧ -2 ^ 63 ≤ r ∧ r ≤ 2 ^ 63 - 1
      ∧ mix64 seed id < 2 ^ 64
      ∧ r = (if mix64 seed id < 2 ^ 63 then (mix64 seed id : Int)
              else (mix64 seed id : Int) - 2 ^ 64)
      ∧ mix64 seed id
          = finalizer ((toUInt64 seed * 0x9E3779B97F4A7C15 + toUInt64 id) % 2 ^ 64)
      ∧ evaluate (some (-9223372036854775808)) (some (-9223372036854775808)) = some 0
      ∧ evaluate (some 9223372036854775807) (some 9223372036854775807)
          = some (-2447048559937167164)
      ∧ evaluate (some (-1)) (some (-1)) = some (-2447048559937167164) := by
  refine ⟨toInt64 (mix64 seed id), seeded_random_func_integer ctx argc seed id, ?_, ?_,
    mix64_lt seed id, rfl, ?_, by decide, by decide, by decide⟩
  · exact (toInt64_isInt64 _ (mix64_lt seed id)).1
  · have := (toInt64_isInt64 _ (mix64_lt seed id)).2
    omega
  · unfold mix64 seedCombine
    rw [Nat.mod_add_mod]

/-! ## C5: determinism -/

/-- C5: the stored result is a function of the two argument values alone: two
runs on the same `(seed, id)` (each an integer or NULL), from any two contexts
and with any `argc`, both complete and store the same value, namely
`evaluate seed id`; nothing else in the context changes. -/
theorem seeded_random_func_deterministic (ctx1 ctx2 : sqlite3_context) (argc1 argc2 : Int)
    (a0 a1 : sqlite3_value) :
    ∃ out : sqlite3_value,
      seeded_random_func ctx1 argc1 [a0, a1] = some { ctx1 with pOut := out }
      ∧ seeded_random_func ctx2 argc2 [a0, a1] = some { ctx2 with pOut := out }
      ∧ out = ofOption (evaluate (toOption a0) (toOption a1)) := by
  cases a0 with
  | null => exact ⟨.null, rfl, rfl, rfl⟩
  | integer s =>
    cases a1 with
    | null => exact ⟨.null, rfl, rfl, rfl⟩
    | integer i => exact ⟨.integer (toInt64 (mix64 s i)), rfl, rfl, rfl⟩

/-! ## C6: order independence -/

theorem Frame.step_returned (f : Frame) (h : f.pc = .returned) : f.step = f := by
  unfold Frame.step; rw [h]

theorem Frame.iterate_returned (f : Frame) (h : f.pc = .returned) (n : Nat) :
    Frame.step^[n] f = f :=
  Function.iterate_fixed (Frame.step_returned f h) n

/-- Executing the statements one by one is the function: after eight
statements the activation has returned exactly when `seeded_random_func`
returns, with the same context. -/
theorem Frame.outcome_eq_seeded_random_func (x0 : Nat) (ctx : sqlite3_context) (argc : Int)
    (argv : List sqlite3_value) :
    (Frame.step^[8] (Frame.entry x0 ctx argc argv)).outcome
      = seeded_random_func ctx argc argv := by
  simp only [Function.iterate_succ_apply, Function.iterate_zero_apply]
  rcases argv with _ | ⟨a0, _ | ⟨a1, rest⟩⟩
  · rfl
  · cases a0 <;> rfl
  · cases a0 <;> cases a1 <;>
      simp [Frame.entry, Frame.step, Frame.outcome, seeded_random_func, sqlite3_value_type,
        sqlite3_value_int64, SQLITE_NULL, SQLITE_INTEGER]

theorem Frame.returned_of_two_args (x0 : Nat) (ctx : sqlite3_context) (argc : Int)
    (a0 a1 : sqlite3_value) :
    (Frame.step^[8] (Frame.entry x0 ctx argc [a0, a1])).pc = .returned := by
  cases a0 <;> cases a1 <;> rfl

theorem Frame.run_two_args (x0 : Nat) (ctx : sqlite3_context) (argc : Int)
    (a0 a1 : sqlite3_value) (n : Nat) (hn : 8 ≤ n) :
    (Frame.step^[n] (Frame.entry x0 ctx argc [a0, a1])).pc = .returned
    ∧ some (Frame.step^[n] (Frame.entry x0 ctx argc [a0, a1])).ctx
        = seeded_random_func ctx argc [a0, a1] := by
  obtain ⟨k, rfl⟩ := Nat.exists_eq_add_of_le hn
  have hret := Frame.returned_of_two_args x0 ctx argc a0 a1
  rw [Nat.add_comm, Function.iterate_add_apply, Frame.iterate_returned _ hret]
  refine ⟨hret, ?_⟩
  rw [← Frame.outcome_eq_seeded_random_func x0 ctx argc [a0, a1]]
  unfold Frame.outcome
  rw [if_pos hret]

theorem World.run_eq (sched : List Bool) (w : World) :
    w.run sched
      = { a := Frame.step^[sched.count true] w.a, b := Frame.step^[sched.count false] w.b } := by
  induction sched generalizing w with
  | nil => rfl
  | cons t ts ih =>
    have h : w.run (t :: ts) = (w.step t).run ts := rfl
    rw [h, ih]
    cases t <;> simp [World.step, Function.iterate_succ_apply]

/-- C6: the two evaluations `(s, i1)` and `(s, i2)` give the same individual
results whatever their order.  Run one after the other through one context,
in either order, each stores `evaluate` of its own pair; run on two threads
under any schedule of statement-level steps that lets both finish, each
activation returns exactly the context its own uninterrupted call returns. -/
theorem seeded_random_func_order_independent (s i1 i2 : sqlite3_value)
    (ctx ctx1 ctx2 : sqlite3_context) (argc : Int) (x1 x2 : Nat) (sched : List Bool)
    (ha : 8 ≤ sched.count true) (hb : 8 ≤ sched.count false) :
    (∃ c1 c12 c2 c21,
        seeded_random_func ctx argc [s, i1] = some c1
        ∧ seeded_random_func c1 argc [s, i2] = some c12
        ∧ seeded_random_func ctx argc [s, i2] = some c2
        ∧ seeded_random_func c2 argc [s, i1] = some c21
        ∧ c1.pOut = c21.pOut ∧ c2.pOut = c12.pOut
        ∧ c1.pOut = ofOption (evaluate (toOption s) (toOption i1))
        ∧ c2.pOut = ofOption (evaluate (toOption s) (toOption i2)))
    ∧ ((World.run ⟨Frame.entry x1 ctx1 argc [s, i1], Frame.entry x2 ctx2 argc [s, i2]⟩
          sched).a.pc = .returned
      ∧ (World.run ⟨Frame.entry x1 ctx1 argc [s, i1], Frame.entry x2 ctx2 argc [s, i2]⟩
          sched).b.pc = .returned
      ∧ some (World.run ⟨Frame.entry x1 ctx1 argc [s, i1], Frame.entry x2 ctx2 argc [s, i2]⟩
          sched).a.ctx = seeded_random_func ctx1 argc [s, i1]
      ∧ some (World.run ⟨Frame.entry x1 ctx1 argc [s, i1], Frame.entry x2 ctx2 argc [s, i2]⟩
          sched).b.ctx = seeded_random_func ctx2 argc [s, i2]) := by
  constructor
  · cases s <;> cases i1 <;> cases i2 <;>
      exact ⟨_, _, _, _, rfl, rfl, rfl, rfl, rfl, rfl, rfl, rfl⟩
  · rw [World.run_eq]
    exact ⟨(Frame.run_two_args x1 ctx1 argc s i1 _ ha).1,
      (Frame.run_two_args x2 ctx2 argc s i2 _ hb).1,
      (Frame.run_two_args x1 ctx1 argc s i1 _ ha).2,
      (Frame.run_two_args x2 ctx2 argc s i2 _ hb).2⟩

theorem seeded_random_func_order_independent_witness :
    (8 ≤ List.count true [true, false, false, true, true, true, false, true, false, false,
            false, true, true, false, false, true, false, true]
      ∧ 8 ≤ List.count false [true, false, false, true, true, true, false, true, false, false,
            false, true, true, false, false, true, false, true])
    ∧ some (World.run ⟨Frame.entry 17 ⟨.null, 0⟩ 2 [.integer 42, .integer 1],
              Frame.entry 99 ⟨.integer 3, 0⟩ 2 [.integer 42, .integer 2]⟩
            [true, false, false, true, true, true, false, true, false, false,
              false, true, true, false, false, true, false, true]).a.ctx
        = seeded_random_func ⟨.null, 0⟩ 2 [.integer 42, .integer 1]
    ∧ some (World.run ⟨Frame.entry 17 ⟨.null, 0⟩ 2 [.integer 42, .integer 1],
              Frame.entry 99 ⟨.integer 3, 0⟩ 2 [.integer 42, .integer 2]⟩
            [true, false, false, true, true, true, false, true, false, false,
              false, true, true, false, false, true, false, true]).b.ctx
        = seeded_random_func ⟨.integer 3, 0⟩ 2 [.integer 42, .integer 2] :=
  ⟨⟨by decide, by decide⟩,
   (seeded_random_func_order_independent (.integer 42) (.integer 1) (.integer 2)
      ⟨.null, 0⟩ ⟨.null, 0⟩ ⟨.integer 3, 0⟩ 2 17 99
      [true, false, false, true, true, true, false, true, false, false,
        false, true, true, false, false, true, false, true]
      (by decide) (by decide)).2.2.2⟩

/-! ## C7: registration -/

/-- C7: the init routine makes one registration call and returns its status:
on any host it is `create_function` applied to the name `seeded_random`,
arity 2, flags `UTF8 | DETERMINISTIC | INNOCUOUS`, `seeded_random_func` as the
scalar implementation and no aggregate callbacks; a recording host ends with
exactly that one new entry, whose flags have the deterministic and the
innocuous bit set. -/
theorem sqlite3_seededrandom_init_registers {DB : Type} (pApi : sqlite3_api_routines DB)
    (db : DB) (pzErrMsg : Option String) (status : List FuncDef → FuncDef → Int)
    (log : List FuncDef) :
    sqlite3_seededrandom_init db pzErrMsg pApi
      = pApi.create_function db "seeded_random" 2
          (SQLITE_UTF8 ||| SQLITE_DETERMINISTIC ||| SQLITE_INNOCUOUS)
          none (some seeded_random_func) none none
    ∧ ∃ d : FuncDef,
        sqlite3_seededrandom_init log pzErrMsg (recordingHost status)
          = (status log d, log ++ [d])
        ∧ d.zFunctionName = "seeded_random"
        ∧ d.nArg = 2
        ∧ d.xFunc = some seeded_random_func
        ∧ d.xStep = none ∧ d.xFinal = none ∧ d.pApp = none
        ∧ d.eTextRep = 0x200801
        ∧ d.eTextRep &&& SQLITE_DETERMINISTIC = SQLITE_DETERMINISTIC
        ∧ d.eTextRep &&& SQLITE_INNOCUOUS = SQLITE_INNOCUOUS := by
  refine ⟨rfl, ⟨"seeded_random", 2, SQLITE_UTF8 ||| SQLITE_DETERMINISTIC ||| SQLITE_INNOCUOUS,
    none, some seeded_random_func, none, none⟩, rfl, rfl, rfl, rfl, rfl, rfl, rfl, ?_, ?_, ?_⟩
  · decide
  · decide
  · decide

/-! ## C8: one key per id -/

/-- C8: for every fixed seed `s`, `id ↦ evaluate(s, id)` is a bijection of the
signed 64-bit integers: distinct ids get distinct keys, in particular `i` and
the wrapping successor of `i` do, every key is a signed 64-bit integer, and
every signed 64-bit value is the key of exactly one id. -/
theorem evaluate_bijective_in_id (s : Int) :
    (∀ i1 i2, isInt64 i1 → isInt64 i2 →
        evaluate (some s) (some i1) = evaluate (some s) (some i2) → i1 = i2)
    ∧ (∀ i, isInt64 i →
        evaluate (some s) (some i) ≠ evaluate (some s) (some (wrapInt64 (i + 1))))
    ∧ (∀ i, ∃ r, isInt64 r ∧ evaluate (some s) (some i) = some r)
    ∧ (∀ r, isInt64 r → ∃! i, isInt64 i ∧ evaluate (some s) (some i) = some r) := by
  have inj : ∀ i1 i2, isInt64 i1 → isInt64 i2 →
      evaluate (some s) (some i1) = evaluate (some s) (some i2) → i1 = i2 :=
    fun i1 i2 h1 h2 h => mix64_injective_id s i1 i2 h1 h2 (evaluate_some_inj _ _ _ _ h)
  refine ⟨inj, ?_, ?_, ?_⟩
  · intro i hi h
    exact wrapInt64_succ_ne i hi (inj i _ hi (wrapInt64_isInt64 _) h).symm
  · intro i
    exact ⟨_, toInt64_isInt64 _ (mix64_lt s i), evaluate_some s i⟩
  · intro r hr
    obtain ⟨x, hx, hfx⟩ := finalizer_surjective (toUInt64 r) (toUInt64_lt r)
    obtain ⟨i, hi, hci⟩ := seedCombine_surjective s x hx
    have hev : evaluate (some s) (some i) = some r := by
      rw [evaluate_some]
      unfold mix64
      rw [hci, hfx, toInt64_toUInt64 r hr]
    refine ⟨i, ⟨hi, hev⟩, ?_⟩
    rintro j ⟨hj, hjr⟩
    exact inj j i hj hi (hjr.trans hev.symm)

theorem evaluate_bijective_in_id_witness :
    evaluate (some 42) (some 9223372036854775807)
      ≠ evaluate (some 42) (some (wrapInt64 (9223372036854775807 + 1))) :=
  (evaluate_bijective_in_id 42).2.1 9223372036854775807 (by decide)

/-! ## C9: one key per seed -/

/-- C9: for every fixed id `i`, two distinct signed 64-bit seeds give the row
different keys; the golden-ratio constant is odd and wrapping multiplication by
it is undone by wrapping multiplication by `0xF1DE83E19937733D`. -/
theorem evaluate_injective_in_seed (i s1 s2 : Int) (h1 : isInt64 s1) (h2 : isInt64 s2)
    (hne : s1 ≠ s2) :
    evaluate (some s1) (some i) ≠ evaluate (some s2) (some i)
    ∧ 0x9E3779B97F4A7C15 % 2 = 1
    ∧ (∀ x, x < 2 ^ 64 →
        mulwrap 0xF1DE83E19937733D (mulwrap 0x9E3779B97F4A7C15 x) = x) := by
  refine ⟨?_, by decide, mulwrap_golden_inverse⟩
  intro h
  exact hne (mix64_injective_seed i s1 s2 h1 h2 (evaluate_some_inj _ _ _ _ h))

theorem evaluate_injective_in_seed_witness :
    (isInt64 (-9223372036854775808) ∧ isInt64 9223372036854775807
      ∧ (-9223372036854775808 : Int) ≠ 9223372036854775807)
    ∧ (evaluate (some (-9223372036854775808)) (some 7)
          ≠ evaluate (some 9223372036854775807) (some 7)
      ∧ 0x9E3779B97F4A7C15 % 2 = 1
      ∧ (∀ x, x < 2 ^ 64 →
          mulwrap 0xF1DE83E19937733D (mulwrap 0x9E3779B97F4A7C15 x) = x)) :=
  ⟨⟨by decide, by decide, by decide⟩,
   evaluate_injective_in_seed 7 (-9223372036854775808) 9223372036854775807
     (by decide) (by decide) (by decide)⟩

/-! ## C10: the seed-shift law -/

/-- C10: the key depends on `(seed, id)` only through
`seed * 0x9E3779B97F4A7C15 + id` modulo `2^64`; hence, with wrapping signed
arithmetic, `evaluate(s + d, i) = evaluate(s, i + d * 0x9E3779B97F4A7C15)`, the
distinct pairs `(1, 0)` and `(0, -7046029254386353131)` collide, and the keys
under seed `s` are the seed-0 keys of the ids translated by
`s * 0x9E3779B97F4A7C15`. -/
theorem evaluate_seed_shift (s i d : Int) :
    evaluate (some (wrapInt64 (s + d))) (some i)
      = evaluate (some s) (some (wrapInt64 (i + d * 0x9E3779B97F4A7C15)))
    ∧ (∀ s1 i1 : Int,
        (s * 0x9E3779B97F4A7C15 + i) % 2 ^ 64 = (s1 * 0x9E3779B97F4A7C15 + i1) % 2 ^ 64 →
        evaluate (some s) (some i) = evaluate (some s1) (some i1))
    ∧ evaluate (some 1) (some 0) = evaluate (some 0) (some (-7046029254386353131))
    ∧ ((1 : Int), (0 : Int)) ≠ (0, -7046029254386353131)
    ∧ evaluate (some s) (some i)
        = evaluate (some 0) (some (wrapInt64 (i + s * 0x9E3779B97F4A7C15))) := by
  refine ⟨?_, fun s1 i1 h => evaluate_congr s i s1 i1 h, by decide, by decide, ?_⟩
  · apply evaluate_congr
    have h1 : wrapInt64 (s + d) * 0x9E3779B97F4A7C15 + i
        ≡ (s + d) * 0x9E3779B97F4A7C15 + i [ZMOD 2 ^ 64] :=
      ((wrapInt64_modEq (s + d)).mul_right _).add_right _
    have h2 : s * 0x9E3779B97F4A7C15 + wrapInt64 (i + d * 0x9E3779B97F4A7C15)
        ≡ s * 0x9E3779B97F4A7C15 + (i + d * 0x9E3779B97F4A7C15) [ZMOD 2 ^ 64] :=
      (wrapInt64_modEq _).add_left _
    have h3 : (s + d) * 0x9E3779B97F4A7C15 + i
        = s * 0x9E3779B97F4A7C15 + (i + d * 0x9E3779B97F4A7C15) := by ring
    exact h1.trans (h3 ▸ h2.symm)
  · apply evaluate_congr
    have h2 : 0 * 0x9E3779B97F4A7C15 + wrapInt64 (i + s * 0x9E3779B97F4A7C15)
        ≡ 0 * 0x9E3779B97F4A7C15 + (i + s * 0x9E3779B97F4A7C15) [ZMOD 2 ^ 64] :=
      (wrapInt64_modEq _).add_left _
    have h3 : s * 0x9E3779B97F4A7C15 + i
        = 0 * 0x9E3779B97F4A7C15 + (i + s * 0x9E3779B97F4A7C15) := by ring
    exact h3 ▸ h2.symm

theorem evaluate_seed_shift_witness :
    evaluate (some 3) (some 5) = evaluate (some 2) (some (-7046029254386353126)) :=
  (evaluate_seed_shift 3 5 0).2.1 2 (-7046029254386353126) (by decide)

/-! ## C11: the key 0 -/

theorem finalizer_zero : finalizer 0 = 0 := by decide

theorem finalizer_eq_zero (x : Nat) (hx : x < 2 ^ 64) (h : finalizer x = 0) : x = 0 :=
  finalizer_injective x 0 hx (by norm_num) (h.trans finalizer_zero.symm)

theorem toInt64_eq_zero (x : Nat) (hx : x < 2 ^ 64) (h : toInt64 x = 0) : x = 0 :=
  toInt64_injective x 0 hx (by norm_num) (h.trans (by decide))

theorem evaluate_zero_iff_seedCombine (s i : Int) :
    evaluate (some s) (some i) = some 0 ↔ seedCombine s i = 0 := by
  rw [evaluate_some]
  constructor
  · intro h
    have hm : mix64 s i = 0 := toInt64_eq_zero _ (mix64_lt s i) (Option.some.inj h)
    exact finalizer_eq_zero _ (seedCombine_lt s i) hm
  · intro h
    unfold mix64
    rw [h, finalizer_zero]
    rfl

theorem seedCombine_zero_iff (s i : Int) :
    seedCombine s i = 0 ↔ (s * 0x9E3779B97F4A7C15 + i) % 2 ^ 64 = 0 := by
  rw [← seedCombine_cast]
  exact Int.natCast_eq_zero.symm

/-- C11: zero is a fixed point of the finalizer and its only 64-bit preimage
of zero, so `evaluate(seed, id) = 0` exactly when
`seed * 0x9E3779B97F4A7C15 + id` is congruent to 0 modulo `2^64`; for every
seed exactly one signed 64-bit id has key 0, and for seed 0 that id is 0. -/
theorem evaluate_eq_zero_iff (seed id : Int) :
    finalizer 0 = 0
    ∧ (∀ x, x < 2 ^ 64 → finalizer x = 0 → x = 0)
    ∧ (evaluate (some seed) (some id) = some 0
        ↔ (seed * 0x9E3779B97F4A7C15 + id) % 2 ^ 64 = 0)
    ∧ (∃! i, isInt64 i ∧ evaluate (some seed) (some i) = some 0)
    ∧ (∀ i, isInt64 i → (evaluate (some 0) (some i) = some 0 ↔ i = 0)) := by
  refine ⟨finalizer_zero, finalizer_eq_zero, ?_, ?_, ?_⟩
  · exact (evaluate_zero_iff_seedCombine seed id).trans (seedCombine_zero_iff seed id)
  · obtain ⟨i, hi, hci⟩ := seedCombine_surjective seed 0 (by norm_num)
    have hev : evaluate (some seed) (some i) = some 0 :=
      (evaluate_zero_iff_seedCombine seed i).mpr hci
    refine ⟨i, ⟨hi, hev⟩, ?_⟩
    rintro j ⟨hj, hjz⟩
    have hcj : seedCombine seed j = 0 := (evaluate_zero_iff_seedCombine seed j).mp hjz
    have hm : mix64 seed j = mix64 seed i := by
      unfold mix64
      rw [hcj, hci]
    exact mix64_injective_id seed j i hj hi hm
  · intro i hi
    constructor
    · intro h
      have hc : seedCombine 0 i = 0 := (evaluate_zero_iff_seedCombine 0 i).mp h
      have hm : mix64 0 i = mix64 0 0 := by
        unfold mix64
        rw [hc]
        rfl
      exact mix64_injective_id 0 i 0 hi (by decide) hm
    · intro h
      subst h
      decide

theorem evaluate_eq_zero_iff_witness :
    evaluate (some 1) (some 7046029254386353131) = some 0 :=
  (evaluate_eq_zero_iff 1 7046029254386353131).2.2.1.mpr (by decide)

end SeededRandom
